import Mathlib

set_option maxRecDepth 4000

/-!
# Verification of the claude-orchestrator dispatch subsystem

Shallow embedding of `src/storage.ts` (Durable Store) and
`src/tools/dispatch.ts` (Task Ledger, Process Supervisor, Recovery
Scanner, reconciliation) of the claude-orchestrator repository,
together with proofs settling the frozen claims about them.

Statuses are modelled as `String`, matching the untyped runtime
representation (TypeScript casts marker-file content to `DispatchStatus`
without validation).  External effects (filesystem reads, the
`process.kill(pid, 0)` probe, id generation, the spawn syscall) are
modelled as explicit environment records, since their outcomes are
inputs to the code under verification, not part of it.
-/

namespace Orchestrator

/-! ## MCP result payloads (`src/util.ts`) -/

/-- An MCP tool result: a text payload plus the error flag
(`ok` / `err` in `src/util.ts`). -/
structure ToolResult where
  text : String
  isError : Bool
deriving Repr, DecidableEq

/-- Function `ok(text)` from `src/util.ts`: a successful MCP text result. -/
def ok (text : String) : ToolResult := ⟨text, false⟩

/-- Function `err(text)` from `src/util.ts`: an error MCP result. -/
def err (text : String) : ToolResult := ⟨text, true⟩

/-! ## Durable Store (`src/storage.ts`)

A store document is a `schema_version` field together with the rest of
its fields, abstracted by a type parameter (`readStore` touches only
`schema_version`; every other field passes through unchanged, which the
parametricity of `α` makes literal).

The on-disk state of one store file is: absent, present but unparsable
(corrupted), or present and parsing to a document.  `JSON.stringify`
followed by `JSON.parse` is the identity on JSON-serializable values,
so a written file is modelled as holding the document itself. -/

/-- A versioned store document: `schema_version` plus all other fields. -/
structure Doc (α : Type) where
  schema_version : Nat
  rest : α
deriving Repr, DecidableEq

/-- On-disk state of a store file. -/
inductive StoreFile (α : Type) where
  | absent
  | unparsable
  | parsed (d : Doc α)
deriving Repr, DecidableEq

/-- Function `readStore` from `src/storage.ts`: missing file yields the default,
unparsable content yields the default, and a parsed document has its
`schema_version` overwritten with the expected one on mismatch. -/
def readStore {α : Type} (file : StoreFile α) (defaultValue : Doc α) : Doc α :=
  match file with
  | .absent => defaultValue
  | .unparsable => defaultValue
  | .parsed parsed =>
      if parsed.schema_version ≠ defaultValue.schema_version then
        { parsed with schema_version := defaultValue.schema_version }
      else
        parsed

/-- Function `atomicWrite` from `src/storage.ts`: serializes the document and
atomically replaces the target file, leaving it parsed. -/
def atomicWrite {α : Type} (data : Doc α) : StoreFile α :=
  StoreFile.parsed data

/-! ## Dispatch data model (`src/types.ts`) -/

/-- Type of `DispatchTask.options` from `src/types.ts`. -/
structure DispatchOptions where
  yolo : Bool := false
  timeout : Option Nat := none
  workdir : Option String := none
  follow_up : Bool := false
deriving Repr, DecidableEq

/-- Record `DispatchTask` from `src/types.ts`.  `status` is a `String` because
the runtime casts arbitrary marker content into it. -/
structure DispatchTask where
  id : String
  model : String
  prompt : String
  options : DispatchOptions := {}
  session_dir : String
  output_file : String
  status : String
  pid : Option Nat := none
  exit_code : Option Int := none
  duration_s : Option Nat := none
  output : Option String := none
  created_at : String
  completed_at : Option String := none
  error : Option String := none
deriving Repr, DecidableEq

/-- Record `DispatchesStore` from `src/types.ts`. -/
structure DispatchesStore where
  schema_version : Nat := 1
  tasks : List DispatchTask := []
deriving Repr, DecidableEq

/-- The four terminal members of the `DispatchStatus` vocabulary. -/
def isTerminal (s : String) : Bool :=
  s == "completed" || s == "failed" || s == "cancelled" || s == "timeout"

/-- Membership in the `DispatchStatus` union type of `src/types.ts`. -/
def statusValid (s : String) : Bool :=
  s == "created" || s == "running" || isTerminal s

/-! ## Reconciliation environment

The reconciliation code consumes three external facts: file contents
(markers and output artifacts), the outcome of the `process.kill(pid, 0)`
probe, and the current timestamp. -/

/-- Outcome of the zero-signal probe `process.kill(pid, 0)`. -/
inductive ProbeResult where
  | ok
  | noSuchProcess
  | permissionDenied
  | otherError
deriving Repr, DecidableEq

/-- External state consulted during reconciliation. -/
structure Env where
  fileContent : String → Option String
  probe : Nat → ProbeResult
  now : String

/-- JavaScript `String.prototype.trim`: strip leading and trailing whitespace,
written structurally on the character list. -/
def trimString (s : String) : String :=
  String.mk (((s.data.dropWhile Char.isWhitespace).reverse.dropWhile
    Char.isWhitespace).reverse)

/-- Marker path `join(sessionDir, ".task-" + taskId + ".state")`. -/
def markerPath (sessionDir taskId : String) : String :=
  sessionDir ++ "/.task-" ++ taskId ++ ".state"

/-- Function `readMarker` from `src/tools/dispatch.ts`: read and trim the marker
file; a missing or unreadable file yields `null`. -/
def readMarker (env : Env) (sessionDir taskId : String) : Option String :=
  (env.fileContent (markerPath sessionDir taskId)).map trimString

/-- Function `isProcessAlive` from `src/tools/dispatch.ts`: `process.kill(pid, 0)`
inside a try/catch whose catch-all returns `false` for every error. -/
def isProcessAlive (env : Env) (pid : Nat) : Bool :=
  match env.probe pid with
  | .ok => true
  | _ => false

/-- The JavaScript truthiness test `t.pid && isProcessAlive(t.pid)`:
an absent pid, and pid `0` (falsy), skip the probe. -/
def pidAliveCheck (env : Env) (pid : Option Nat) : Bool :=
  match pid with
  | some p => if p = 0 then false else isProcessAlive env p
  | none => false

/-- Function `readOutputFile` from `src/tools/dispatch.ts`: missing or unreadable
file yields `undefined`; content longer than 50000 is truncated with an
explicit marker. -/
def readOutputFile (env : Env) (path : String) : Option String :=
  (env.fileContent path).map fun content =>
    if content.length > 50000 then content.take 50000 ++ "\n...[truncated]"
    else content

/-- JavaScript truthiness of an optional string (`undefined` and `""`
are falsy). -/
def strTruthy (s : Option String) : Bool :=
  match s with
  | some v => v != ""
  | none => false

/-- ASCII lowercase of one character. -/
def lowerChar (c : Char) : Char :=
  if 'A' ≤ c ∧ c ≤ 'Z' then Char.ofNat (c.toNat + 32) else c

/-- Whether the first character list occurs at the head of the second. -/
def charsStartWith : List Char → List Char → Bool
  | [], _ => true
  | _ :: _, [] => false
  | a :: as, b :: bs => a == b && charsStartWith as bs

/-- Whether the first character list occurs contiguously anywhere in the
second. -/
def charsOccurIn (needle : List Char) : List Char → Bool
  | [] => charsStartWith needle []
  | b :: bs => charsStartWith needle (b :: bs) || charsOccurIn needle bs

/-- Case-insensitive substring containment, for checking quoted phrases
against the error messages the code produces. -/
def containsCI (needle hay : String) : Bool :=
  charsOccurIn (needle.data.map lowerChar) (hay.data.map lowerChar)

/-- Case-insensitive containment inside an optional error field
(`none` contains nothing). -/
def optContainsCI (s : Option String) (needle : String) : Bool :=
  match s with
  | some v => containsCI needle v
  | none => false

/-- The recovery precondition of the orphan claim, as a decidable
check: the marker file is absent or holds no terminal value. -/
def markerNonTerminal (env : Env) (t : DispatchTask) : Bool :=
  match readMarker env t.session_dir t.id with
  | some m => !isTerminal m
  | none => true

/-! ## Recovery Scanner (`recoverOrphanedTasks`, `src/tools/dispatch.ts`) -/

/-- The per-task body of the `tasks.map` inside `recoverOrphanedTasks`:
terminal rows pass through; a `running`/`created` row adopts a
`completed`/`failed` marker, otherwise stays if its process is alive,
otherwise is forced to `failed` as an orphan. -/
def recoverTask (env : Env) (t : DispatchTask) : DispatchTask :=
  if t.status ≠ "running" ∧ t.status ≠ "created" then t
  else
    let marker := readMarker env t.session_dir t.id
    if marker = some "completed" ∨ marker = some "failed" then
      { t with status := marker.getD "",
               completed_at := some env.now,
               output := if marker = some "completed" then readOutputFile env t.output_file
                         else none,
               error := if marker = some "failed" then some "Recovered from orphaned state"
                        else none }
    else if pidAliveCheck env t.pid then t
    else
      { t with status := "failed", completed_at := some env.now,
               error := some "Orphaned task recovered on startup (process not alive)" }

/-- Function `recoverOrphanedTasks` from `src/tools/dispatch.ts`: if no task is
`running` or `created` the store is left untouched (early return),
otherwise every task is mapped through `recoverTask`. -/
def recoverOrphanedTasks (env : Env) (store : DispatchesStore) : DispatchesStore :=
  if (store.tasks.filter fun t => t.status == "running" || t.status == "created").length = 0
  then store
  else { store with tasks := store.tasks.map (recoverTask env) }

/-! ## `get_dispatch_result` reconciliation (`src/tools/dispatch.ts`)

The handler's store mutation and the task record it subsequently
renders.  `none` in the second component models the `err` early
returns (missing argument / unknown id). -/

/-- The `else if (task.pid && !isProcessAlive(task.pid))` branch of the
`get_dispatch_result` handler: a dead process without a marker is
promoted to `completed` if a truthy output artifact exists, else forced
to `failed`. -/
def getResultPidCheck (env : Env) (store : DispatchesStore) (task : DispatchTask)
    (taskId : String) : DispatchesStore × Option DispatchTask :=
  match task.pid with
  | some p =>
      if p ≠ 0 ∧ ¬ isProcessAlive env p then
        let output := readOutputFile env task.output_file
        let status := if strTruthy output then "completed" else "failed"
        let store' := { store with tasks := store.tasks.map fun t =>
          if t.id == taskId then
            { t with status := status, completed_at := some env.now, output := output,
                     error := if status = "failed" then some "Process exited without marker"
                              else none }
          else t }
        (store', store'.tasks.find? fun t => t.id == taskId)
      else (store, some task)
  | none => (store, some task)

/-- Handler `get_dispatch_result` from `src/tools/dispatch.ts`: look up
the task; if it is `running`, adopt any truthy non-`running` marker
(materializing output when the marker says `completed`), else run the
dead-process check; return the updated store and the record rendered to
the caller. -/
def get_dispatch_result (env : Env) (store : DispatchesStore) (taskId : String) :
    DispatchesStore × Option DispatchTask :=
  if taskId = "" then (store, none)
  else
    match store.tasks.find? (fun t => t.id == taskId) with
    | none => (store, none)
    | some task =>
        if task.status = "running" then
          let marker := readMarker env task.session_dir task.id
          if strTruthy marker ∧ marker ≠ some "running" then
            let output := if marker = some "completed" then readOutputFile env task.output_file
                          else none
            let store' := { store with tasks := store.tasks.map fun t =>
              if t.id == taskId then
                { t with status := marker.getD "", completed_at := some env.now,
                         output := output }
              else t }
            (store', store'.tasks.find? fun t => t.id == taskId)
          else getResultPidCheck env store task taskId
        else (store, some task)

/-! ## Process Supervisor (`dispatch` / `retry_dispatch` / `list_dispatches`)

The `dispatch` handler consumes further external facts: the optional
bridge config, the existence of the wrapper executable, the freshly
generated task id, the timestamp, the home directory, and the outcome of
the `spawn` call.  The ledger writes and filesystem side effects the
handler performs, in program order, are recorded as an event trace so
that ordering claims can be stated.  The asynchronous exit observer
installed on success runs after the handler returns and is not part of
this synchronous trace. -/

/-- External state consumed by one run of the `dispatch` handler. -/
structure DispatchEnv where
  /-- Result of `readBridgeConfig()`: `none` if the config file is missing or
  unreadable; `some none` if it parses but has no `models` field;
  `some (some keys)` for the keys of its `models` object. -/
  bridgeConfig : Option (Option (List String)) := none
  /-- Result of `existsSync(WRAPPER_PATH)`. -/
  wrapperExists : Bool := true
  /-- Result of `genId("dsp")`. -/
  newTaskId : String
  /-- Outcome of `spawn(...)`: the child PID, or the thrown error
  message. -/
  spawnResult : Except String Nat
  /-- Result of `nowISO()`. -/
  now : String
  /-- Result of `homedir()`. -/
  home : String := "/home/user"

/-- Path `WRAPPER_PATH` relative to the environment's home directory. -/
def wrapperPathOf (env : DispatchEnv) : String :=
  env.home ++ "/.claude/orchestration/templates/dispatch-wrapper.sh"

/-- Path `SESSION_BASE` relative to the environment's home directory. -/
def sessionBaseOf (env : DispatchEnv) : String :=
  env.home ++ "/.claude/orchestration/sessions"

/-- Side effects of the `dispatch` handler, in program order. -/
inductive DispatchEvent where
  /-- The `spawn("bash", wrapperArgs, ...)` call, carrying the model and
  the full prompt passed in argv / `ORCH_PROMPT`. -/
  | spawnAttempt (model : String) (prompt : String)
  /-- A `writeMarker(sessionDir, taskId, status)` call. -/
  | markerWrite (sessionDir taskId status : String)
  /-- An `updateStore` call, carrying the ledger state it persists. -/
  | persist (s : DispatchesStore)
deriving Repr, DecidableEq

/-- One synchronous run of a dispatch-family handler: its event trace,
the ledger state when it returns, and its MCP result. -/
structure DispatchRun where
  events : List DispatchEvent
  store : DispatchesStore
  result : ToolResult
deriving Repr, DecidableEq

/-- The persisted-prompt truncation at task construction:
`prompt.length > 500 ? prompt.slice(0, 497) + "..." : prompt`
(`slice(0, 497)` keeps the first 497 characters, written here on the
character list). -/
def truncPrompt (prompt : String) : String :=
  if prompt.length > 500 then String.mk (prompt.data.take 497) ++ "..." else prompt

/-- The bridge-config validation: rejection happens only when a config
was read, it has a `models` object, and the model is not a key of it. -/
def modelAllowed (env : DispatchEnv) (model : String) : Bool :=
  match env.bridgeConfig with
  | some (some models) => models.contains model
  | _ => true

/-- The in-memory `task` object built by the `dispatch` handler before
the spawn attempt (status `created`, no pid yet). -/
def mkTask (env : DispatchEnv) (model prompt : String) (options : DispatchOptions) :
    DispatchTask :=
  let taskId := env.newTaskId
  let sessionDir := sessionBaseOf env ++ "/" ++ taskId
  { id := taskId
    model := model
    prompt := truncPrompt prompt
    options := options
    session_dir := sessionDir
    output_file := sessionDir ++ "/" ++ model ++ "-turn-0001.md"
    status := "created"
    created_at := env.now }

/-- The task row persisted when `spawn` throws: status `failed` with the
descriptive error, no pid. -/
def failedSpawnTask (env : DispatchEnv) (model prompt : String)
    (options : DispatchOptions) (e : String) : DispatchTask :=
  { mkTask env model prompt options with
      status := "failed", error := some ("Failed to spawn: " ++ e) }

/-- The task row persisted when `spawn` succeeds: pid set, status
`running`. -/
def runningTask (env : DispatchEnv) (model prompt : String)
    (options : DispatchOptions) (pid : Nat) : DispatchTask :=
  { mkTask env model prompt options with pid := some pid, status := "running" }

/-- The body of the `dispatch` handler after validation has passed:
build the `created` task in memory, attempt the spawn, mutate the task
to `running` (writing the `running` marker) or to `failed`, then persist
the row once with a single `updateStore` append. -/
def dispatchCore (env : DispatchEnv) (store : DispatchesStore)
    (model prompt : String) (options : DispatchOptions) : DispatchRun :=
  let taskId := env.newTaskId
  let sessionDir := sessionBaseOf env ++ "/" ++ taskId
  match env.spawnResult with
  | .ok pid =>
      let task := runningTask env model prompt options pid
      let store' := { store with tasks := store.tasks ++ [task] }
      { events := [.spawnAttempt model prompt,
                   .markerWrite sessionDir taskId "running",
                   .persist store']
        store := store'
        result := ok ("Dispatched to " ++ model ++ " — task_id: **" ++ taskId ++
                      "** (PID: " ++ toString pid ++ ")\nSession: " ++ sessionDir) }
  | .error e =>
      let task := failedSpawnTask env model prompt options e
      let store' := { store with tasks := store.tasks ++ [task] }
      { events := [.spawnAttempt model prompt, .persist store']
        store := store'
        result := err ("Dispatch failed: Failed to spawn: " ++ e) }

/-- The `dispatch` handler from `src/tools/dispatch.ts`: argument
validation, bridge-config model validation, wrapper existence check
(each an early error return touching neither ledger nor filesystem),
then `dispatchCore`. -/
def dispatchHandler (env : DispatchEnv) (store : DispatchesStore)
    (model prompt : String) (options : DispatchOptions) : DispatchRun :=
  if model = "" ∨ prompt = "" then
    { events := [], store := store, result := err "model and prompt are required" }
  else if ¬ modelAllowed env model then
    { events := [], store := store,
      result := err ("Unknown model \"" ++ model ++ "\"") }
  else if ¬ env.wrapperExists then
    { events := [], store := store,
      result := err ("Dispatch wrapper not found at " ++ wrapperPathOf env) }
  else dispatchCore env store model prompt options

/-- The `retry_dispatch` handler from `src/tools/dispatch.ts`: look up
the row; only `failed`/`cancelled` may be retried; delegate to the
`dispatch` handler with the row's persisted `model`, `prompt` and
`options`.  The original row is passed through inside `store`
untouched. -/
def retryDispatch (env : DispatchEnv) (store : DispatchesStore)
    (taskId : String) : DispatchRun :=
  if taskId = "" then
    { events := [], store := store, result := err "task_id is required" }
  else
    match store.tasks.find? (fun t => t.id == taskId) with
    | none =>
        { events := [], store := store,
          result := err ("Task \"" ++ taskId ++ "\" not found") }
    | some task =>
        if task.status ≠ "failed" ∧ task.status ≠ "cancelled" then
          { events := [], store := store,
            result := err ("Task \"" ++ taskId ++ "\" is " ++ task.status ++
                           ", can only retry failed/cancelled tasks") }
        else dispatchHandler env store task.model task.prompt task.options

/-- The `list_dispatches` handler's task selection from
`src/tools/dispatch.ts`: `(args.limit as number) || 20` (JavaScript
falsy: an absent limit and limit `0` both fall back to 20), newest
first, truthy filters, then `slice(0, limit)`. -/
def list_dispatches (store : DispatchesStore) (model status : Option String)
    (limit : Option Nat) : List DispatchTask :=
  let limitN := match limit with
    | some n => if n = 0 then 20 else n
    | none => 20
  let tasks := store.tasks.reverse
  let tasks := match model with
    | some m => if m = "" then tasks else tasks.filter fun t => t.model == m
    | none => tasks
  let tasks := match status with
    | some s => if s = "" then tasks else tasks.filter fun t => t.status == s
    | none => tasks
  tasks.take limitN

/-! ## Helper lemmas -/

theorem isTerminal_cases {s : String} (h : isTerminal s = true) :
    s = "completed" ∨ s = "failed" ∨ s = "cancelled" ∨ s = "timeout" := by
  have h' : ((s = "completed" ∨ s = "failed") ∨ s = "cancelled") ∨ s = "timeout" := by
    unfold isTerminal at h
    simpa using h
  tauto

theorem isTerminal_ne_active {s : String} (h : isTerminal s = true) :
    s ≠ "running" ∧ s ≠ "created" ∧ s ≠ "" := by
  rcases isTerminal_cases h with h | h | h | h <;> subst h <;>
    exact ⟨by decide, by decide, by decide⟩

theorem recoverTask_terminal_fixed (env : Env) (t : DispatchTask)
    (h : isTerminal t.status = true) : recoverTask env t = t := by
  have hne := isTerminal_ne_active h
  unfold recoverTask
  rw [if_pos ⟨hne.1, hne.2.1⟩]

theorem recoverOrphanedTasks_tasks (env : Env) (store : DispatchesStore) :
    (recoverOrphanedTasks env store).tasks = store.tasks.map (recoverTask env) := by
  unfold recoverOrphanedTasks
  split
  · next h =>
      have hall := List.filter_eq_nil_iff.mp (List.length_eq_zero.mp h)
      have hfix : ∀ t ∈ store.tasks, recoverTask env t = t := by
        intro t ht
        have hp := hall t ht
        simp only [Bool.or_eq_true, beq_iff_eq, not_or] at hp
        unfold recoverTask
        rw [if_pos ⟨hp.1, hp.2⟩]
      have : store.tasks.map (recoverTask env) = store.tasks.map (fun t => t) :=
        List.map_congr_left hfix
      simp only [this, List.map_id_fun]
      simp
  · rfl

theorem find?_update_map (l : List DispatchTask) (tid : String)
    (f : DispatchTask → DispatchTask) (hf : ∀ x, (f x).id = x.id)
    (t : DispatchTask) (h : l.find? (fun x => x.id == tid) = some t) :
    (l.map fun x => if x.id == tid then f x else x).find? (fun x => x.id == tid) =
      some (f t) := by
  induction l with
  | nil => simp at h
  | cons a l ih =>
      rw [List.map_cons]
      by_cases ha : (a.id == tid) = true
      · have h1 : (a :: l).find? (fun x => x.id == tid) = some a := by
          simp only [List.find?, ha]
        rw [h1] at h
        injection h with h
        subst h
        have h2 : (if (a.id == tid) = true then f a else a) = f a := if_pos ha
        rw [h2]
        have h3 : ((f a).id == tid) = true := by rw [hf a]; exact ha
        simp only [List.find?, h3]
      · have h1 : (a :: l).find? (fun x => x.id == tid) = l.find? (fun x => x.id == tid) := by
          simp only [List.find?, ha]
        rw [h1] at h
        have h2 : (if (a.id == tid) = true then f a else a) = a := if_neg ha
        rw [h2]
        have h3 :
            ((a :: l.map fun x => if (x.id == tid) = true then f x else x).find?
              (fun x => x.id == tid)) =
            ((l.map fun x => if (x.id == tid) = true then f x else x).find?
              (fun x => x.id == tid)) := by
          simp only [List.find?, ha]
        rw [h3]
        exact ih h

theorem dispatchHandler_take_rows (env : DispatchEnv) (store : DispatchesStore)
    (model prompt : String) (options : DispatchOptions) :
    (dispatchHandler env store model prompt options).store.tasks.take store.tasks.length
      = store.tasks := by
  unfold dispatchHandler dispatchCore
  split
  · exact List.take_length _
  · split
    · exact List.take_length _
    · split
      · exact List.take_length _
      · cases env.spawnResult with
        | ok pid => exact List.take_left _ _
        | error e => exact List.take_left _ _

theorem recoverTask_not_terminal_cond {t : DispatchTask}
    (hactive : t.status = "running" ∨ t.status = "created") :
    ¬ (t.status ≠ "running" ∧ t.status ≠ "created") := by
  rintro ⟨h1, h2⟩
  rcases hactive with h | h
  · exact h1 h
  · exact h2 h

theorem markerNonTerminal_not_adopted {env : Env} {t : DispatchTask}
    (hmarker : markerNonTerminal env t = true) :
    ¬ (readMarker env t.session_dir t.id = some "completed" ∨
       readMarker env t.session_dir t.id = some "failed") := by
  rintro (h | h) <;> simp [markerNonTerminal, h, isTerminal] at hmarker

theorem recoverTask_orphan (env : Env) (t : DispatchTask)
    (hactive : t.status = "running" ∨ t.status = "created")
    (hmarker : markerNonTerminal env t = true)
    (hdead : pidAliveCheck env t.pid = false) :
    recoverTask env t =
      { t with status := "failed", completed_at := some env.now,
               error := some "Orphaned task recovered on startup (process not alive)" } := by
  simp only [recoverTask]
  rw [if_neg (recoverTask_not_terminal_cond hactive),
      if_neg (markerNonTerminal_not_adopted hmarker),
      if_neg (by simp [hdead])]

theorem recoverTask_resolves (env : Env) (x : DispatchTask)
    (hx : statusValid x.status = true) :
    isTerminal (recoverTask env x).status = true ∨
      (recoverTask env x = x ∧ pidAliveCheck env x.pid = true) := by
  by_cases hterm : isTerminal x.status = true
  · left
    rw [recoverTask_terminal_fixed env x hterm]
    exact hterm
  · have hactive : x.status = "running" ∨ x.status = "created" := by
      unfold statusValid at hx
      rw [Bool.or_eq_true] at hx
      rcases hx with h | h
      · rw [Bool.or_eq_true] at h
        rcases h with h | h
        · right; exact eq_of_beq h
        · left; exact eq_of_beq h
      · exact absurd h hterm
    simp only [recoverTask]
    rw [if_neg (recoverTask_not_terminal_cond hactive)]
    by_cases hm : readMarker env x.session_dir x.id = some "completed" ∨
                  readMarker env x.session_dir x.id = some "failed"
    · rw [if_pos hm]
      left
      rcases hm with h | h <;> simp [h, isTerminal]
    · rw [if_neg hm]
      by_cases ha : pidAliveCheck env x.pid = true
      · rw [if_pos ha]
        right
        exact ⟨rfl, ha⟩
      · rw [if_neg ha]
        left
        simp [isTerminal]

/-! ## Claims -/

/-- C1: every `running`/`created` task whose marker is absent or
non-terminal and whose recorded PID is not confirmed alive is forced by
the Recovery Scanner to status `failed` with an error containing
"orphaned" (case-insensitively; the literal message is "Orphaned task
recovered on startup (process not alive)"), and after the scan every
task is either terminal or has a process confirmed alive. -/
theorem recovery_scanner_forces_orphans_failed
    (env : Env) (store : DispatchesStore) (t : DispatchTask)
    (hvalid : store.tasks.all (fun x => statusValid x.status) = true)
    (_hmem : t ∈ store.tasks)
    (hactive : t.status = "running" ∨ t.status = "created")
    (hmarker : markerNonTerminal env t = true)
    (hdead : pidAliveCheck env t.pid = false) :
    (recoverOrphanedTasks env store).tasks = store.tasks.map (recoverTask env) ∧
    (recoverTask env t).status = "failed" ∧
    optContainsCI (recoverTask env t).error "orphaned" = true ∧
    ((recoverOrphanedTasks env store).tasks.all
        fun x => isTerminal x.status || pidAliveCheck env x.pid) = true := by
  have horphan := recoverTask_orphan env t hactive hmarker hdead
  refine ⟨recoverOrphanedTasks_tasks env store, ?_, ?_, ?_⟩
  · rw [horphan]
  · rw [horphan]
    show optContainsCI (some "Orphaned task recovered on startup (process not alive)")
      "orphaned" = true
    decide
  · rw [recoverOrphanedTasks_tasks env store, List.all_map, List.all_eq_true]
    intro x hx
    have hxv := List.all_eq_true.mp hvalid x hx
    rcases recoverTask_resolves env x hxv with h | ⟨heq, halive⟩
    · simp [Function.comp, h]
    · simp [Function.comp, heq, halive]

/-- The external state for the C1 witness: no files exist and every
probe reports "no such process". -/
def envDead : Env :=
  { fileContent := fun _ => none
    probe := fun _ => ProbeResult.noSuchProcess
    now := "2026-01-02T00:00:00Z" }

/-- A `running` ledger row whose process is gone and whose marker was
never written. -/
def taskOrphan : DispatchTask :=
  { id := "dsp_orph"
    model := "codex"
    prompt := "p"
    session_dir := "/home/user/.claude/orchestration/sessions/dsp_orph"
    output_file := "/home/user/.claude/orchestration/sessions/dsp_orph/codex-turn-0001.md"
    status := "running"
    pid := some 999
    created_at := "2026-01-01T00:00:00Z" }

/-- A one-row ledger seeded with the orphaned task. -/
def storeOrphan : DispatchesStore := { tasks := [taskOrphan] }

/-- C1 witness: on the concrete seeded ledger the scanner forces the
orphan to `failed` with an "orphaned" error and leaves no ambiguous
row. -/
theorem recovery_scanner_forces_orphans_failed_witness :
    (recoverTask envDead taskOrphan).status = "failed" ∧
    optContainsCI (recoverTask envDead taskOrphan).error "orphaned" = true ∧
    ((recoverOrphanedTasks envDead storeOrphan).tasks.all
        fun x => isTerminal x.status || pidAliveCheck envDead x.pid) = true := by
  have h := recovery_scanner_forces_orphans_failed envDead storeOrphan taskOrphan
    (by decide) (by decide) (Or.inl rfl) (by decide) (by decide)
  exact ⟨h.2.1, h.2.2.1, h.2.2.2⟩

/-- C9: a task already in a terminal status is left unchanged by
reconciliation applied any number of times: the Recovery Scanner's
per-row transform fixes it (so the row passes through the scan intact),
and `get_dispatch_result` leaves the store untouched and returns the
record as-is — no terminal status is ever reassigned. -/
theorem terminal_reconciliation_idempotent
    (env : Env) (store : DispatchesStore) (t : DispatchTask) (n : Nat)
    (hid : t.id ≠ "")
    (hmem : t ∈ store.tasks)
    (hfind : store.tasks.find? (fun x => x.id == t.id) = some t)
    (hterm : isTerminal t.status = true) :
    (recoverTask env)^[n] t = t ∧
    t ∈ (recoverOrphanedTasks env store).tasks ∧
    get_dispatch_result env store t.id = (store, some t) := by
  have hfix := recoverTask_terminal_fixed env t hterm
  refine ⟨Function.iterate_fixed hfix n, ?_, ?_⟩
  · rw [recoverOrphanedTasks_tasks env store]
    exact List.mem_map.mpr ⟨t, hmem, hfix⟩
  · have hne := (isTerminal_ne_active hterm).1
    simp only [get_dispatch_result, hid, if_false, hfind]
    rw [if_neg hne]

/-- A task that already reached a terminal status, for the C9 witness. -/
def taskDone : DispatchTask :=
  { id := "dsp_done"
    model := "gemini"
    prompt := "p"
    session_dir := "/home/user/.claude/orchestration/sessions/dsp_done"
    output_file := "/home/user/.claude/orchestration/sessions/dsp_done/gemini-turn-0001.md"
    status := "completed"
    pid := some 1200
    output := some "done"
    created_at := "2026-01-01T00:00:00Z"
    completed_at := some "2026-01-01T00:05:00Z" }

/-- A one-row ledger holding the completed task. -/
def storeDone : DispatchesStore := { tasks := [taskDone] }

/-- C9 witness: three scans and a result query leave the concrete
completed task byte-for-byte unchanged. -/
theorem terminal_reconciliation_idempotent_witness :
    (recoverTask envDead)^[3] taskDone = taskDone ∧
    taskDone ∈ (recoverOrphanedTasks envDead storeDone).tasks ∧
    get_dispatch_result envDead storeDone "dsp_done" = (storeDone, some taskDone) :=
  terminal_reconciliation_idempotent envDead storeDone taskDone 3
    (by decide) (by decide) (by decide) (by decide)

/-- C2 (amended): reconciliation of a `running` task adopts terminal
marker values with different scopes on the two paths:
`get_dispatch_result` adopts any truthy marker other than \"running\" —
in particular every terminal value — materializing output from the
output artifact when the marker says `completed`; the Recovery
Scanner's transform adopts only `completed` and `failed` markers (a
`cancelled` or `timeout` marker is not adopted there; see the
counterexample). -/
theorem reconciliation_adopts_markers
    (env : Env) (store : DispatchesStore) (t : DispatchTask) (m : String)
    (hid : t.id ≠ "")
    (hfind : store.tasks.find? (fun x => x.id == t.id) = some t)
    (hrun : t.status = "running")
    (hmark : readMarker env t.session_dir t.id = some m)
    (hterm : isTerminal m = true) :
    (get_dispatch_result env store t.id).2 =
      some { t with status := m, completed_at := some env.now,
                    output := if m = "completed" then readOutputFile env t.output_file
                              else none } ∧
    ((m = "completed" ∨ m = "failed") →
      recoverTask env t =
        { t with status := m, completed_at := some env.now,
                 output := if m = "completed" then readOutputFile env t.output_file
                           else none,
                 error := if m = "failed" then some "Recovered from orphaned state"
                          else none }) := by
  have hne := isTerminal_ne_active hterm
  constructor
  · have hguard : strTruthy (readMarker env t.session_dir t.id) = true ∧
        readMarker env t.session_dir t.id ≠ some "running" := by
      rw [hmark]
      exact ⟨by simp [strTruthy, hne.2.2], by simp [hne.1]⟩
    simp only [get_dispatch_result, hid, if_false, hfind, hrun, if_pos hguard]
    have hfound := find?_update_map store.tasks t.id
      (fun x => { x with
        status := (readMarker env t.session_dir t.id).getD ""
        completed_at := some env.now
        output := if readMarker env t.session_dir t.id = some "completed"
                  then readOutputFile env t.output_file else none })
      (fun x => rfl) t hfind
    simp only [hfound]
    rw [hmark]
    by_cases hm : m = "completed"
    · subst hm; simp
    · simp [hm, Option.getD]
  · intro hcf
    have hadopt : readMarker env t.session_dir t.id = some "completed" ∨
                  readMarker env t.session_dir t.id = some "failed" := by
      rcases hcf with h | h
      · left; rw [hmark, h]
      · right; rw [hmark, h]
    simp only [recoverTask]
    rw [if_neg (recoverTask_not_terminal_cond (Or.inl hrun)), if_pos hadopt, hmark]
    by_cases hm : m = "completed"
    · subst hm; simp
    · have hm2 : m = "failed" := by
        rcases hcf with h | h
        · exact absurd h hm
        · exact h
      subst hm2; simp

/-- The external state for the C2 witness: the marker file of the hello
task reads `completed` and its output artifact contains "hello". -/
def envHello : Env :=
  { fileContent := fun p =>
      if p = markerPath "/home/user/.claude/orchestration/sessions/dsp_h" "dsp_h" then
        some "completed"
      else if p = "/home/user/.claude/orchestration/sessions/dsp_h/codex-turn-0001.md" then
        some "hello"
      else none
    probe := fun _ => ProbeResult.ok
    now := "2026-01-03T00:00:00Z" }

/-- A `running` task whose marker was manually written to `completed`. -/
def taskHello : DispatchTask :=
  { id := "dsp_h"
    model := "codex"
    prompt := "say hello"
    session_dir := "/home/user/.claude/orchestration/sessions/dsp_h"
    output_file := "/home/user/.claude/orchestration/sessions/dsp_h/codex-turn-0001.md"
    status := "running"
    pid := some 7
    created_at := "2026-01-02T23:00:00Z" }

/-- A one-row ledger holding the hello task. -/
def storeHello : DispatchesStore := { tasks := [taskHello] }

/-- C2 witness: `get_dispatch_result` on the hello task reports status
`completed` with output "hello" materialized from the artifact. -/
theorem reconciliation_adopts_markers_witness :
    (get_dispatch_result envHello storeHello "dsp_h").2 =
      some { taskHello with status := "completed",
                            completed_at := some "2026-01-03T00:00:00Z",
                            output := some "hello" } ∧
    containsCI "hello"
      (((get_dispatch_result envHello storeHello "dsp_h").2.bind fun x => x.output).getD "")
      = true := by
  have h := reconciliation_adopts_markers envHello storeHello taskHello "completed"
    (by decide) (by decide) rfl (by decide) (by decide)
  have h1 : (get_dispatch_result envHello storeHello "dsp_h").2 =
      some { taskHello with status := "completed",
                            completed_at := some envHello.now,
                            output := if "completed" = "completed"
                                      then readOutputFile envHello taskHello.output_file
                                      else none } := h.1
  refine ⟨?_, ?_⟩
  · rw [h1]
    decide
  · rw [h1]
    decide

/-- The external state for the C2 counterexample: the marker reads
`cancelled` and the process is gone. -/
def envCancelMark : Env :=
  { fileContent := fun p =>
      if p = markerPath "/home/user/.claude/orchestration/sessions/dsp_c" "dsp_c" then
        some "cancelled"
      else none
    probe := fun _ => ProbeResult.noSuchProcess
    now := "2026-01-03T00:00:00Z" }

/-- A `running` task whose marker holds the terminal value `cancelled`. -/
def taskCancelMark : DispatchTask :=
  { id := "dsp_c"
    model := "codex"
    prompt := "p"
    session_dir := "/home/user/.claude/orchestration/sessions/dsp_c"
    output_file := "/home/user/.claude/orchestration/sessions/dsp_c/codex-turn-0001.md"
    status := "running"
    pid := some 9
    created_at := "2026-01-02T00:00:00Z" }

/-- C2 counterexample: the Recovery Scanner does NOT adopt the terminal
marker value `cancelled` — it forces the row to `failed` with the orphan
error instead, contradicting the claim that reconciliation through the
Recovery Scanner adopts any terminal marker value. -/
theorem scanner_ignores_cancelled_marker_cex :
    readMarker envCancelMark taskCancelMark.session_dir taskCancelMark.id =
      some "cancelled" ∧
    taskCancelMark.status = "running" ∧
    (recoverTask envCancelMark taskCancelMark).status = "failed" ∧
    ((recoverOrphanedTasks envCancelMark { tasks := [taskCancelMark] }).tasks.map
        fun x => x.status) = ["failed"] := by decide

/-- C5: the liveness probe `isProcessAlive` is a zero-signal kill whose
catch-all returns `false` for every error; it reports alive exactly when
the probe succeeds, so a permission error is treated as NOT alive
(refuting the claim's permission-error exception; see the
counterexample). -/
theorem probe_error_means_not_alive (env : Env) (pid : Nat) :
    isProcessAlive env pid = (env.probe pid == ProbeResult.ok) := by
  unfold isProcessAlive
  cases env.probe pid <;> rfl

/-- C5 counterexample: a probe that fails with a permission error
(process exists but is inaccessible) yields `false` from
`isProcessAlive`, and the Recovery Scanner consequently forces such a
`running` task to `failed` instead of leaving it `running`. -/
def envPerm : Env :=
  { fileContent := fun _ => none
    probe := fun _ => ProbeResult.permissionDenied
    now := "2026-01-01T00:00:00Z" }

/-- A `running` task whose recorded PID is alive under another user. -/
def taskPerm : DispatchTask :=
  { id := "dsp_perm"
    model := "codex"
    prompt := "p"
    session_dir := "/home/user/.claude/orchestration/sessions/dsp_perm"
    output_file := "/home/user/.claude/orchestration/sessions/dsp_perm/codex-turn-0001.md"
    status := "running"
    pid := some 4242
    created_at := "2026-01-01T00:00:00Z" }

/-- C5 counterexample: with a permission-denied probe the code reports
not-alive and the scanner transitions the task to `failed`, contradicting
the claim that permission errors are treated as still-alive. -/
theorem permission_error_not_alive_cex :
    envPerm.probe 4242 = ProbeResult.permissionDenied ∧
    isProcessAlive envPerm 4242 = false ∧
    taskPerm.status = "running" ∧
    (recoverTask envPerm taskPerm).status = "failed" :=
  ⟨rfl, rfl, rfl, rfl⟩

/-- Whether a dispatch side effect is a ledger persist. -/
def isPersistEvent : DispatchEvent → Bool
  | .persist _ => true
  | _ => false

/-- Whether some ledger state persisted in the trace contains a row
with the given id and status. -/
def persistsStatusRow (events : List DispatchEvent) (taskId status : String) : Bool :=
  events.any fun e =>
    match e with
    | .persist s => s.tasks.any fun t => t.id == taskId && t.status == status
    | _ => false

theorem any_id_status_false (l : List DispatchTask) (tid status : String)
    (h : l.all (fun x => x.id != tid) = true) :
    (l.any fun t => t.id == tid && t.status == status) = false := by
  rw [List.any_eq_false]
  intro x hx
  have hne := List.all_eq_true.mp h x hx
  simp only [bne_iff_ne, ne_eq] at hne
  simp [hne]

theorem dispatchHandler_eq_core (env : DispatchEnv) (store : DispatchesStore)
    (model prompt : String) (options : DispatchOptions)
    (hm : model ≠ "") (hp : prompt ≠ "")
    (hma : modelAllowed env model = true)
    (hw : env.wrapperExists = true) :
    dispatchHandler env store model prompt options =
      dispatchCore env store model prompt options := by
  unfold dispatchHandler
  rw [if_neg (by push_neg; exact ⟨hm, hp⟩), if_neg (by simp [hma]), if_neg (by simp [hw])]

/-- C3 (amended): a successful `dispatch` run performs exactly one
ledger persist, which happens after the spawn attempt (the spawn is the
first event of the trace and the persist the last): the persisted row
has status `running` on spawn success or `failed` on spawn error, and
no ledger state ever holds the new task with status `created` — that
status exists only in the handler's memory and is never observable to a
reader of the Ledger. -/
theorem dispatch_persists_after_spawn_only
    (env : DispatchEnv) (store : DispatchesStore) (model prompt : String)
    (options : DispatchOptions)
    (hm : model ≠ "") (hp : prompt ≠ "")
    (hma : modelAllowed env model = true)
    (hw : env.wrapperExists = true)
    (hfresh : store.tasks.all (fun x => x.id != env.newTaskId) = true) :
    (dispatchHandler env store model prompt options).events.head? =
      some (.spawnAttempt model prompt) ∧
    (dispatchHandler env store model prompt options).events.filter isPersistEvent =
      [.persist (dispatchHandler env store model prompt options).store] ∧
    (dispatchHandler env store model prompt options).events.getLast? =
      some (.persist (dispatchHandler env store model prompt options).store) ∧
    persistsStatusRow (dispatchHandler env store model prompt options).events
      env.newTaskId "created" = false ∧
    (persistsStatusRow (dispatchHandler env store model prompt options).events
        env.newTaskId "running" ||
      persistsStatusRow (dispatchHandler env store model prompt options).events
        env.newTaskId "failed") = true := by
  rw [dispatchHandler_eq_core env store model prompt options hm hp hma hw]
  have hrc : (("running" : String) == "created") = false := by decide
  have hfc : (("failed" : String) == "created") = false := by decide
  unfold dispatchCore
  cases hs : env.spawnResult with
  | ok pid =>
      refine ⟨rfl, rfl, rfl, ?_, ?_⟩
      · simp only [persistsStatusRow, List.any_cons, List.any_nil, Bool.or_false,
          Bool.false_or, List.any_append, any_id_status_false _ _ _ hfresh,
          runningTask, mkTask]
        simp [hrc]
      · simp only [persistsStatusRow, List.any_cons, List.any_nil, Bool.or_false,
          Bool.false_or, List.any_append, any_id_status_false _ _ _ hfresh,
          runningTask, mkTask]
        simp
  | error e =>
      refine ⟨rfl, rfl, rfl, ?_, ?_⟩
      · simp only [persistsStatusRow, List.any_cons, List.any_nil, Bool.or_false,
          Bool.false_or, List.any_append, any_id_status_false _ _ _ hfresh,
          failedSpawnTask, mkTask]
        simp [hfc]
      · simp only [persistsStatusRow, List.any_cons, List.any_nil, Bool.or_false,
          Bool.false_or, List.any_append, any_id_status_false _ _ _ hfresh,
          failedSpawnTask, mkTask]
        simp

/-- The external state for a successful dispatch: fresh id `dsp_1`,
spawn succeeds with PID 31337. -/
def envOk : DispatchEnv :=
  { newTaskId := "dsp_1", spawnResult := .ok 31337, now := "2026-02-01T00:00:00Z" }

/-- C3 witness: a concrete successful dispatch spawns first and never
persists a `created` row. -/
theorem dispatch_persists_after_spawn_only_witness :
    (dispatchHandler envOk ({} : DispatchesStore) "codex" "say hi" {}).events.head? =
      some (.spawnAttempt "codex" "say hi") ∧
    persistsStatusRow (dispatchHandler envOk ({} : DispatchesStore) "codex" "say hi" {}).events
      "dsp_1" "created" = false := by
  have h := dispatch_persists_after_spawn_only envOk {} "codex" "say hi" {}
    (by decide) (by decide) rfl rfl rfl
  exact ⟨h.1, h.2.2.2.1⟩

/-- C3 counterexample: this concrete `dispatch` call succeeds (the
result is not an error), yet its trace never persists a row with status
`created` — the single persist carries status `running` and happens
after the spawn — contradicting the claim that a `created` row is
persisted to the Ledger before the worker is spawned. -/
theorem dispatch_no_created_persist_cex :
    (dispatchHandler envOk ({} : DispatchesStore) "codex" "say hi" {}).result.isError
      = false ∧
    (dispatchHandler envOk ({} : DispatchesStore) "codex" "say hi" {}).events.head? =
      some (.spawnAttempt "codex" "say hi") ∧
    persistsStatusRow (dispatchHandler envOk ({} : DispatchesStore) "codex" "say hi" {}).events
      "dsp_1" "created" = false ∧
    persistsStatusRow (dispatchHandler envOk ({} : DispatchesStore) "codex" "say hi" {}).events
      "dsp_1" "running" = true := by decide

/-- C4 (amended): `retry_dispatch` on a `failed`/`cancelled` row
re-invokes the `dispatch` handler with the row's persisted `model`,
`prompt` and `options`; the persisted prompt is the truncated form,
equal to the originally passed prompt only when that prompt was at most
500 characters long (see the counterexample for a longer prompt); the
prior ledger rows are never mutated — they survive as a prefix of the
resulting ledger. -/
theorem retry_uses_persisted_prompt
    (env : DispatchEnv) (store : DispatchesStore) (taskId : String) (task : DispatchTask)
    (hid : taskId ≠ "")
    (hfind : store.tasks.find? (fun x => x.id == taskId) = some task)
    (hstat : task.status = "failed" ∨ task.status = "cancelled") :
    retryDispatch env store taskId =
      dispatchHandler env store task.model task.prompt task.options ∧
    (retryDispatch env store taskId).store.tasks.take store.tasks.length = store.tasks ∧
    (∀ p : String, p.length ≤ 500 → truncPrompt p = p) := by
  have hguard : ¬ (task.status ≠ "failed" ∧ task.status ≠ "cancelled") := by
    rintro ⟨h1, h2⟩
    rcases hstat with h | h
    · exact h1 h
    · exact h2 h
  have h1 : retryDispatch env store taskId =
      dispatchHandler env store task.model task.prompt task.options := by
    simp only [retryDispatch, hid, if_false, hfind]
    rw [if_neg hguard]
  refine ⟨h1, ?_, ?_⟩
  · rw [h1]
    exact dispatchHandler_take_rows env store task.model task.prompt task.options
  · intro p hp
    unfold truncPrompt
    rw [if_neg (by omega)]

/-- The external state for the C4 witness retry run. -/
def envRetry : DispatchEnv :=
  { newTaskId := "dsp_2", spawnResult := .ok 4242, now := "2026-02-01T00:01:00Z" }

/-- A failed row with a short (untruncated) prompt. -/
def taskFailedShort : DispatchTask :=
  { id := "dsp_f"
    model := "codex"
    prompt := "fix it"
    session_dir := "/home/user/.claude/orchestration/sessions/dsp_f"
    output_file := "/home/user/.claude/orchestration/sessions/dsp_f/codex-turn-0001.md"
    status := "failed"
    pid := some 11
    error := some "Process exited with code 1"
    created_at := "2026-01-31T00:00:00Z"
    completed_at := some "2026-01-31T00:02:00Z" }

/-- A one-row ledger holding the failed task. -/
def storeRetry : DispatchesStore := { tasks := [taskFailedShort] }

/-- C4 witness: retrying the concrete failed row delegates to
`dispatch` with its persisted model/prompt/options, preserves the
original row, and a short prompt round-trips untruncated. -/
theorem retry_uses_persisted_prompt_witness :
    retryDispatch envRetry storeRetry "dsp_f" =
      dispatchHandler envRetry storeRetry "codex" "fix it" {} ∧
    (retryDispatch envRetry storeRetry "dsp_f").store.tasks.take 1 = [taskFailedShort] ∧
    truncPrompt "fix it" = "fix it" := by
  have h := retry_uses_persisted_prompt envRetry storeRetry "dsp_f" taskFailedShort
    (by decide) (by decide) (Or.inl rfl)
  exact ⟨h.1, h.2.1, h.2.2 "fix it" (by decide)⟩

/-- A 501-character prompt (above the 500-character persistence cap). -/
def longPrompt : String := String.mk (List.replicate 501 'a')

/-- The external state for a dispatch whose spawn throws. -/
def envSpawnFail : DispatchEnv :=
  { newTaskId := "dsp_1", spawnResult := .error "EAGAIN", now := "2026-02-01T00:00:00Z" }

theorem truncPrompt_shortens (p : String) (h : p.length > 500) :
    (truncPrompt p).length = 500 := by
  unfold truncPrompt
  rw [if_pos h]
  rw [String.length_append]
  have h1 : (String.mk (p.data.take 497)).length = min 497 p.data.length := by
    show (p.data.take 497).length = _
    exact List.length_take _ _
  have h2 : p.data.length = p.length := rfl
  rw [h1, h2]
  have h3 : min 497 p.length = 497 := by omega
  rw [h3]
  rfl

theorem longPrompt_length : longPrompt.length = 501 := by
  simp [longPrompt, String.length]

/-- C4 counterexample: dispatching a 501-character prompt persists only
its truncated form, and the subsequent retry re-dispatches that
truncated prompt — which is NOT equal to the prompt originally passed —
contradicting the claim that the re-dispatched prompt equals the
original for prompts of any length. -/
theorem retry_truncated_prompt_cex :
    ((dispatchHandler envSpawnFail ({} : DispatchesStore) "codex" longPrompt {}).store.tasks.map
        fun t => t.status) = ["failed"] ∧
    (retryDispatch envRetry
        (dispatchHandler envSpawnFail ({} : DispatchesStore) "codex" longPrompt {}).store
        "dsp_1").events.head? =
      some (.spawnAttempt "codex" (truncPrompt longPrompt)) ∧
    truncPrompt longPrompt ≠ longPrompt := by
  refine ⟨rfl, rfl, ?_⟩
  intro heq
  have hlen := congrArg String.length heq
  rw [truncPrompt_shortens longPrompt (by rw [longPrompt_length]; omega),
    longPrompt_length] at hlen
  omega

/-- C6 (amended): a dispatch whose spawn call throws is surfaced as a
structured error AND recorded as a terminal `failed` row appended to
the Ledger (auditable); but a dispatch rejected because the wrapper
executable is missing is surfaced as a structured error with NO ledger
row created (see the counterexample). -/
theorem spawn_failure_surfaced_and_recorded
    (env : DispatchEnv) (store : DispatchesStore) (model prompt : String)
    (options : DispatchOptions) (e : String)
    (hm : model ≠ "") (hp : prompt ≠ "") (hma : modelAllowed env model = true) :
    (env.wrapperExists = false →
      dispatchHandler env store model prompt options =
        { events := [], store := store,
          result := err ("Dispatch wrapper not found at " ++ wrapperPathOf env) }) ∧
    (env.wrapperExists = true → env.spawnResult = Except.error e →
      (dispatchHandler env store model prompt options).result =
        err ("Dispatch failed: Failed to spawn: " ++ e) ∧
      (dispatchHandler env store model prompt options).store.tasks =
        store.tasks ++ [failedSpawnTask env model prompt options e] ∧
      (failedSpawnTask env model prompt options e).status = "failed" ∧
      isTerminal (failedSpawnTask env model prompt options e).status = true ∧
      (failedSpawnTask env model prompt options e).error =
        some ("Failed to spawn: " ++ e)) := by
  constructor
  · intro hw
    unfold dispatchHandler
    rw [if_neg (by push_neg; exact ⟨hm, hp⟩), if_neg (by simp [hma]), if_pos (by simp [hw])]
  · intro hw hs
    rw [dispatchHandler_eq_core env store model prompt options hm hp hma hw]
    unfold dispatchCore
    rw [hs]
    exact ⟨rfl, rfl, rfl, rfl, rfl⟩

/-- C6 witness: a concrete spawn failure is surfaced as an error and
leaves an auditable terminal `failed` row in the Ledger. -/
theorem spawn_failure_surfaced_and_recorded_witness :
    (dispatchHandler envSpawnFail ({} : DispatchesStore) "codex" "say hi" {}).result =
      err "Dispatch failed: Failed to spawn: EAGAIN" ∧
    (dispatchHandler envSpawnFail ({} : DispatchesStore) "codex" "say hi" {}).store.tasks =
      [failedSpawnTask envSpawnFail "codex" "say hi" {} "EAGAIN"] ∧
    isTerminal (failedSpawnTask envSpawnFail "codex" "say hi" {} "EAGAIN").status = true := by
  have h := (spawn_failure_surfaced_and_recorded envSpawnFail {} "codex" "say hi" {} "EAGAIN"
    (by decide) (by decide) rfl).2 rfl rfl
  exact ⟨h.1, h.2.1, h.2.2.2.1⟩

/-- The external state for a dispatch with the wrapper executable
missing. -/
def envNoWrapper : DispatchEnv :=
  { wrapperExists := false, newTaskId := "dsp_9", spawnResult := .ok 1,
    now := "2026-02-01T00:00:00Z" }

/-- C6 counterexample: with the wrapper executable missing, the failure
is surfaced as an error but NO ledger row is created (the store is
untouched and the trace is empty), contradicting the claim that every
spawn failure is also recorded as a terminal `failed` task row. -/
theorem wrapper_missing_no_ledger_row_cex :
    (dispatchHandler envNoWrapper ({} : DispatchesStore) "codex" "hi" {}).result.isError
      = true ∧
    (dispatchHandler envNoWrapper ({} : DispatchesStore) "codex" "hi" {}).store
      = ({} : DispatchesStore) ∧
    (dispatchHandler envNoWrapper ({} : DispatchesStore) "codex" "hi" {}).events = [] :=
  ⟨rfl, rfl, rfl⟩

/-- C7: the Durable Store read is total: a missing backing file yields
the default document, and an unparsable (corrupted) file yields the
default as well — by construction `readStore` never raises. -/
theorem readStore_total_default {α : Type} (defaultValue : Doc α) :
    readStore StoreFile.absent defaultValue = defaultValue ∧
    readStore StoreFile.unparsable defaultValue = defaultValue :=
  ⟨rfl, rfl⟩

/-- C8: a Durable Store write followed by a read returns the written
document with only its `schema_version` normalized to the expected
version; the rest of the document passes through unaltered. -/
theorem store_roundtrip {α : Type} (doc defaultValue : Doc α) :
    readStore (atomicWrite doc) defaultValue =
      { doc with schema_version := defaultValue.schema_version } ∧
    (readStore (atomicWrite doc) defaultValue).rest = doc.rest := by
  have h : readStore (atomicWrite doc) defaultValue =
      { doc with schema_version := defaultValue.schema_version } := by
    show (if doc.schema_version ≠ defaultValue.schema_version then
        { doc with schema_version := defaultValue.schema_version } else doc) =
      { doc with schema_version := defaultValue.schema_version }
    by_cases hv : doc.schema_version ≠ defaultValue.schema_version
    · rw [if_pos hv]
    · rw [if_neg hv]
      push_neg at hv
      cases doc
      simp_all
  exact ⟨h, by rw [h]⟩

/-- C10: `list_dispatches` computes its cap as `limit || 20`, so a limit
of `0` (JavaScript falsy) behaves exactly like an absent limit: the
default cap of 20 applies and up to 20 tasks are returned, not an empty
list. -/
theorem list_limit_zero_defaults (store : DispatchesStore) (model status : Option String) :
    list_dispatches store model status (some 0) = list_dispatches store model status none ∧
    (list_dispatches store model status (some 0)).length ≤ 20 ∧
    list_dispatches store none none (some 0) = store.tasks.reverse.take 20 := by
  refine ⟨rfl, ?_, rfl⟩
  unfold list_dispatches
  exact List.length_take_le _ _

end Orchestrator
